import Mathlib

/-!
# Verification of the raster safety supervisor (`raster.cpp`)

A shallow embedding of the safety-interlock supervisor: the IO registry of
`SafetyInputConfig` slots, the robot actuation tracker, the evaluator cycle
(`io_monitor_thread` loop body), the actuation engine
(`pause_robots` / `resume_robots`), the manual reset (`resetSpeed`), the
configuration replacement (`updateIOConfig`), and the request handler's
parse step (`rasterSafetyControl`, operation `update_config`).

External platform calls are modelled as explicit environments:
`NRC_ReadTcpBoolVar` becomes a function `Int → Bool`, the robot controller
query/command primitives become a `RobotEnv`, and the durable-storage write
outcome becomes a `Bool` parameter.  Notifications
(`NRC_TriggerErrorReport`) are collected into an explicit event list.
All state mutation under the single `io_mutex` is explicit state passing:
one invocation of an operation is one pure function from the global state
(plus environments) to the new global state and the emitted events.
-/

namespace RasterSafety

/-- The process-wide safety state (`SystemState` in the source):
`SYSTEM_STATE_NORMAL` or `SYSTEM_STATE_LIMITED`. -/
inductive SystemState where
  | NORMAL
  | LIMITED
deriving DecidableEq, Repr

/-- One slot of the IO registry (`IOConfig` in the source).  `trigger_value`
is stored as an `int` (0 or 1) exactly as in the C++; the trigger level as a
boolean is `trigger_value == 1`.  `trigger_time` models the `time_t`
timestamp (0 when cleared). -/
structure IOConfig where
  io_index : Int
  reset_io_index : Int
  trigger_value : Int
  description : String
  is_configured : Bool
  already_triggered : Bool
  trigger_time : Int
deriving DecidableEq, Repr

/-- The default-constructed `IOConfig` used to fill unconfigured registry
slots (the source comment documents `-1 io_index, is_configured=false`; the
latched state starts cleared). -/
def defaultIOConfig : IOConfig :=
  { io_index := -1
    reset_io_index := 0
    trigger_value := 1
    description := ""
    is_configured := false
    already_triggered := false
    trigger_time := 0 }

instance : Inhabited IOConfig := ⟨defaultIOConfig⟩

/-- Per-robot bookkeeping (`RobotState` in the source).  `current_run_status`
mirrors the controller's run mode: 0 stopped, 1 paused, 2 running. -/
structure RobotState where
  current_run_status : Int
  last_job_name : String
  message_sent_limited : Bool
  message_sent_recovered : Bool
deriving DecidableEq, Repr

/-- The default-constructed `RobotState`: status 0, empty job name, both
one-shot notification flags false. -/
def initRobotState : RobotState :=
  { current_run_status := 0
    last_job_name := ""
    message_sent_limited := false
    message_sent_recovered := false }

/-- The robot-controller environment for one operation: the results the NRC
primitives return during that operation.  `getProgramRunStatus` is the
result of a plain `NRC_Rbt_GetProgramRunStatus` query; `statusAfterPause`
(resp. `statusAfterResume`) is the result of the re-query performed after
issuing the pause (resp. resume) command and waiting the confirmation
interval; `getCurrentOpenJob` is the job name returned by
`NRC_GetCurrentOpenJob` (stored by the source whether or not the call
reported success). -/
structure RobotEnv where
  getProgramRunStatus : Int → Int
  statusAfterPause : Int → Int
  statusAfterResume : Int → Int
  getCurrentOpenJob : Int → String

/-- The notifications emitted through `NRC_TriggerErrorReport`, tagged by
which source branch emitted them. -/
inductive Event where
  | pausedNotify (id : Int)
  | pauseFail (id : Int)
  | alreadySafeNotify (id : Int)
  | resumedNotify (id : Int)
  | resumeFail (id : Int)
  | needManualResume (id : Int)
  | noResumeNeeded (id : Int)
  | systemLimitedNotify
  | systemNormalNotify
  | resetStillActive (ioIndex : Int)
deriving DecidableEq, Repr

/-- An actuation-failure notification: the two branches the source reports
at severity 3 and never de-duplicates (pause did not reach PAUSED, resume
did not reach RUNNING). -/
def Event.isFailure : Event → Bool
  | .pauseFail _ => true
  | .resumeFail _ => true
  | _ => false

/-- The robot ids this module controls (`handled_robot_ids = {1, 2}`). -/
def handled_robot_ids : List Int := [1, 2]

/-- The guarded IO read (`read_io`): an index outside 0..2048 yields `false`
without consulting the platform primitive `NRC_ReadTcpBoolVar` (modelled by
`env`). -/
def read_io (env : Int → Bool) (index : Int) : Bool :=
  if index < 0 ∨ index > 2048 then false else env index

/-- Whether an entry's physical level currently equals its trigger level:
the source comparison `current_io_value == (io.trigger_value == 1)`. -/
def meets_trigger (env : Int → Bool) (io : IOConfig) : Bool :=
  read_io env io.io_index == decide (io.trigger_value = 1)

/-- One evaluator cycle's treatment of a single registry entry (the body of
the per-entry loop in `io_monitor_thread`): skip unconfigured slots; latch
`already_triggered` (stamping `trigger_time := now`) on a fresh trigger;
otherwise, when latched and the trigger condition is clear, clear the latch
exactly when the reset condition holds — the reset input reads true if
`reset_io_index > 0`, else vacuously. -/
def evalEntry (env : Int → Bool) (now : Int) (io : IOConfig) : IOConfig :=
  if io.is_configured = false then io
  else if meets_trigger env io then
    if io.already_triggered = false then
      { io with already_triggered := true, trigger_time := now }
    else io
  else if io.already_triggered then
    let meets_reset : Bool :=
      if io.reset_io_index > 0 then read_io env io.reset_io_index else true
    if meets_reset then
      { io with already_triggered := false, trigger_time := 0 }
    else io
  else io

/-- The action of `pause_robots` on one robot.  The status snapshot is
refreshed first; a RUNNING robot has its job name captured (unconditionally
stored), the pause command issued, and the run mode re-queried: PAUSED
confirms success (one-shot notification under the `message_sent_limited`
flag, which also clears `message_sent_recovered`), anything else is an
actuation failure (always-notified, job name cleared).  A robot already
stopped or paused gets the one-shot "already safe" notification and its job
name cleared. -/
def pauseOne (renv : RobotEnv) (st : RobotState) (id : Int) : RobotState × List Event :=
  let st := { st with current_run_status := renv.getProgramRunStatus id }
  if st.current_run_status = 2 then
    let st := { st with last_job_name := renv.getCurrentOpenJob id }
    if renv.statusAfterPause id = 1 then
      if st.message_sent_limited = false then
        ({ st with message_sent_limited := true, message_sent_recovered := false },
         [Event.pausedNotify id])
      else (st, [])
    else
      ({ st with last_job_name := "" }, [Event.pauseFail id])
  else
    let step : RobotState × List Event :=
      if st.message_sent_limited = false then
        ({ st with message_sent_limited := true, message_sent_recovered := false },
         [Event.alreadySafeNotify id])
      else (st, [])
    ({ step.1 with last_job_name := "" }, step.2)

/-- The action of `resume_robots` on one robot.  Only a PAUSED robot is a
candidate: with a recorded job the resume command is issued and the run mode
re-queried — RUNNING confirms success (one-shot notification, job cleared),
anything else is an always-notified failure that retains the job for a
retry; with no recorded job the one-shot "needs manual resume" notification
fires.  A robot already stopped or running gets the one-shot "no action
needed" notification and its job name cleared. -/
def resumeOne (renv : RobotEnv) (st : RobotState) (id : Int) : RobotState × List Event :=
  let st := { st with current_run_status := renv.getProgramRunStatus id }
  if st.current_run_status = 1 then
    if st.last_job_name ≠ "" then
      if renv.statusAfterResume id = 2 then
        if st.message_sent_recovered = false then
          ({ st with message_sent_recovered := true, message_sent_limited := false,
                     last_job_name := "" },
           [Event.resumedNotify id])
        else ({ st with last_job_name := "" }, [])
      else
        (st, [Event.resumeFail id])
    else
      if st.message_sent_recovered = false then
        ({ st with message_sent_recovered := true, message_sent_limited := false },
         [Event.needManualResume id])
      else (st, [])
  else
    let step : RobotState × List Event :=
      if st.message_sent_recovered = false then
        ({ st with message_sent_recovered := true, message_sent_limited := false },
         [Event.noResumeNeeded id])
      else (st, [])
    ({ step.1 with last_job_name := "" }, step.2)

/-- Run a per-robot action over every handled robot in order, accumulating
the emitted notifications — the `for (int id : handled_robot_ids)` loops of
the actuation engine. -/
def runOnRobots (f : RobotState → Int → RobotState × List Event)
    (robots : Int → RobotState) : (Int → RobotState) × List Event :=
  handled_robot_ids.foldl
    (fun acc id =>
      let r := f (acc.1 id) id
      (Function.update acc.1 id r.1, acc.2 ++ r.2))
    (robots, [])

/-- The actuation engine's `pause_robots`, over the whole robot table. -/
def pause_robots (renv : RobotEnv) (robots : Int → RobotState) :
    (Int → RobotState) × List Event :=
  runOnRobots (fun st id => pauseOne renv st id) robots

/-- The actuation engine's `resume_robots`, over the whole robot table. -/
def resume_robots (renv : RobotEnv) (robots : Int → RobotState) :
    (Int → RobotState) × List Event :=
  runOnRobots (fun st id => resumeOne renv st id) robots

/-- Apply an update to each handled robot's state in order — the loops that
clear a notification flag or refresh the run-status snapshot. -/
def mapRobots (f : Int → RobotState → RobotState) (robots : Int → RobotState) :
    Int → RobotState :=
  handled_robot_ids.foldl (fun acc id => Function.update acc id (f id (acc id))) robots

/-- The whole mutable state guarded by `io_mutex`, plus the persisted file's
logical content (`none` until a save succeeds). -/
structure GlobalState where
  io_list : List IOConfig
  configured_limited_speed : Int
  robots : Int → RobotState
  system_state : SystemState
  limited_msg_sent : Bool
  normal_msg_sent : Bool
  saved_file : Option (List IOConfig × Int)

/-- The loop body of `io_monitor_thread` (one evaluator cycle): evaluate
every entry, derive the required state from the post-evaluation latches of
configured entries, act on a transition (one-shot system notification plus
pause or resume), then refresh each robot's run-status snapshot. -/
def monitorCycle (env : Int → Bool) (renv : RobotEnv) (now : Int) (g : GlobalState) :
    GlobalState × List Event :=
  let ios := g.io_list.map (evalEntry env now)
  let anyFlag := ios.any (fun io => io.is_configured && io.already_triggered)
  let required : SystemState := if anyFlag then .LIMITED else .NORMAL
  let acted : GlobalState × List Event :=
    if required ≠ g.system_state then
      if required = .LIMITED then
        let noted : GlobalState × List Event :=
          if g.limited_msg_sent = false then
            ({ g with io_list := ios, system_state := required,
                      limited_msg_sent := true, normal_msg_sent := false,
                      robots := mapRobots (fun _ st => { st with message_sent_recovered := false }) g.robots },
             [Event.systemLimitedNotify])
          else ({ g with io_list := ios, system_state := required }, [])
        let paused := pause_robots renv noted.1.robots
        ({ noted.1 with robots := paused.1 }, noted.2 ++ paused.2)
      else
        let noted : GlobalState × List Event :=
          if g.normal_msg_sent = false then
            ({ g with io_list := ios, system_state := required,
                      normal_msg_sent := true, limited_msg_sent := false,
                      robots := mapRobots (fun _ st => { st with message_sent_limited := false }) g.robots },
             [Event.systemNormalNotify])
          else ({ g with io_list := ios, system_state := required }, [])
        let resumed := resume_robots renv noted.1.robots
        ({ noted.1 with robots := resumed.1 }, noted.2 ++ resumed.2)
    else ({ g with io_list := ios }, [])
  ({ acted.1 with
      robots := mapRobots (fun id st => { st with current_run_status := renv.getProgramRunStatus id }) acted.1.robots },
   acted.2)

/-- The manual reset (`resetSpeed`): unconditionally clear every configured
entry's latch and timestamp; re-sample every configured entry's physical
level; if none is in alarm, succeed (forcing a LIMITED system back to NORMAL
with an inline `resume_robots`); otherwise re-latch every configured entry
currently in alarm with a fresh timestamp, force the state to LIMITED, emit
the still-active alert naming the first in-alarm entry, and fail.
`clearEntry` is the forgive step: a configured, latched entry has its latch
and timestamp cleared. -/
def clearEntry (io : IOConfig) : IOConfig :=
  if io.is_configured = true ∧ io.already_triggered = true then
    { io with already_triggered := false, trigger_time := 0 }
  else io

/-- The re-latch step of `resetSpeed`'s failure path: a configured entry
whose trigger condition currently holds and whose latch is clear is latched
again with a fresh timestamp. -/
def relatchEntry (env : Int → Bool) (now : Int) (io : IOConfig) : IOConfig :=
  if io.is_configured = true ∧ meets_trigger env io = true ∧ io.already_triggered = false then
    { io with already_triggered := true, trigger_time := now }
  else io

/-- The manual reset (`resetSpeed`): unconditionally clear every configured
entry's latch and timestamp; re-sample every configured entry's physical
level; if none is in alarm, succeed (forcing a LIMITED system back to NORMAL
with an inline `resume_robots`); otherwise re-latch every configured entry
currently in alarm with a fresh timestamp, force the state to LIMITED, emit
the still-active alert naming the first in-alarm entry, and fail. -/
def resetSpeed (env : Int → Bool) (renv : RobotEnv) (now : Int) (g : GlobalState) :
    Bool × GlobalState × List Event :=
  let was_limited := g.system_state = SystemState.LIMITED
  let ios1 := g.io_list.map clearEntry
  match ios1.find? (fun io => io.is_configured && meets_trigger env io) with
  | none =>
      if was_limited then
        if g.system_state = SystemState.LIMITED then
          let resumed := resume_robots renv g.robots
          (true,
           { g with io_list := ios1, system_state := SystemState.NORMAL,
                    robots := resumed.1 },
           resumed.2)
        else (true, { g with io_list := ios1 }, [])
      else (true, { g with io_list := ios1 }, [])
  | some alarmIo =>
      let ios2 := ios1.map (relatchEntry env now)
      (false,
       { g with io_list := ios2, system_state := SystemState.LIMITED },
       [Event.resetStillActive alarmIo.io_index])

/-- The normalized registry entry `updateIOConfig` builds from an accepted
input entry: configured, latch and timestamp reset, `trigger_value`
corrected to 1 when it is neither 0 nor 1. -/
def normalizeEntry (cfg : IOConfig) : IOConfig :=
  { io_index := cfg.io_index
    reset_io_index := cfg.reset_io_index
    trigger_value := if cfg.trigger_value ≠ 0 ∧ cfg.trigger_value ≠ 1 then 1 else cfg.trigger_value
    description := cfg.description
    is_configured := true
    already_triggered := false
    trigger_time := 0 }

/-- One step of `updateIOConfig`'s table construction: an entry whose
`io_index` is out of 0..2048 is skipped, an entry whose `reset_io_index` is
out of 0..2048 is likewise skipped (the source logs "跳过此配置条目" and
applies nothing), and an accepted entry is stored, normalized, at slot
`io_index`. -/
def applyOneEntry (acc : List IOConfig) (cfg : IOConfig) : List IOConfig :=
  if 0 ≤ cfg.io_index ∧ cfg.io_index ≤ 2048 then
    if 0 ≤ cfg.reset_io_index ∧ cfg.reset_io_index ≤ 2048 then
      acc.set cfg.io_index.toNat (normalizeEntry cfg)
    else acc
  else acc

/-- The fresh registry `updateIOConfig` builds: 2049 default slots with each
input entry applied in order via `applyOneEntry`. -/
def applyConfigEntries (config : List IOConfig) : List IOConfig :=
  config.foldl applyOneEntry (List.replicate 2049 defaultIOConfig)

/-- The configuration replacement (`updateIOConfig`).  A `limited_speed`
outside [0,100] is rejected before any mutation.  Otherwise the speed is
stored, the registry wholesale replaced by `applyConfigEntries`, and the
result persisted: `saveOk` models whether `save_to_file` succeeds (on
success the file holds the new content; on failure it is unchanged).  The
call returns the save outcome — an in-memory replacement with a failed save
returns `false` yet stands. -/
def updateIOConfig (saveOk : Bool) (config : List IOConfig) (limited_speed : Int)
    (g : GlobalState) : Bool × GlobalState :=
  if limited_speed < 0 ∨ limited_speed > 100 then (false, g)
  else
    let ios := applyConfigEntries config
    let g1 := { g with io_list := ios, configured_limited_speed := limited_speed }
    if saveOk then
      (true, { g1 with saved_file := some (ios, limited_speed) })
    else
      (false, g1)

/-- A raw `config_data` array element of an `update_config` request, after
JSON field extraction with the source's defaults (`reset_io_index` 0,
`trigger_value` 1, `description` empty). -/
structure RawEntry where
  io_index : Int
  reset_io_index : Int
  trigger_value : Int
  description : String
deriving DecidableEq, Repr

/-- The request handler's validation of one `config_data` element
(`rasterSafetyControl`, operation `update_config`): an out-of-range
`io_index` drops the element; an out-of-range `reset_io_index` is corrected
to 0; a `trigger_value` other than 0 or 1 is corrected to 1.  The surviving
element is the `IOConfig` handed to `updateIOConfig`. -/
def parseConfigEntry (e : RawEntry) : Option IOConfig :=
  if e.io_index < 0 ∨ e.io_index > 2048 then none
  else
    let r := if e.reset_io_index < 0 ∨ e.reset_io_index > 2048 then 0 else e.reset_io_index
    let tv := if e.trigger_value ≠ 0 ∧ e.trigger_value ≠ 1 then 1 else e.trigger_value
    some
      { io_index := e.io_index
        reset_io_index := r
        trigger_value := tv
        description := e.description
        is_configured := true
        already_triggered := false
        trigger_time := 0 }

/-- The vector of entries the request handler passes to `updateIOConfig`. -/
def parseConfigData (l : List RawEntry) : List IOConfig :=
  l.filterMap parseConfigEntry

/-- One reported entry of a `get_config` response: index, trigger value,
reset index, description, and whether the entry appears in the
currently-triggered list. -/
structure ConfigReport where
  io_index : Int
  trigger_value : Int
  reset_io_index : Int
  description : String
  is_triggered : Bool
deriving DecidableEq, Repr

/-- The `getTriggeredIOStates` snapshot: the configured entries whose latch
is set. -/
def getTriggeredIOStates (g : GlobalState) : List IOConfig :=
  g.io_list.filter (fun io => io.is_configured && io.already_triggered)

/-- The `get_config` response content: the configured limited speed and one
report per configured entry, `is_triggered` determined by membership (by
`io_index`) in the triggered snapshot. -/
def get_config (g : GlobalState) : Int × List ConfigReport :=
  (g.configured_limited_speed,
   g.io_list.filterMap (fun io =>
     if io.is_configured = true then
       some
         { io_index := io.io_index
           trigger_value := io.trigger_value
           reset_io_index := io.reset_io_index
           description := io.description
           is_triggered := (getTriggeredIOStates g).any (fun t => t.io_index == io.io_index) }
     else none))

/-- The `getCurrentIOStatus` snapshot: the guarded physical read of every
index 0..2048. -/
def getCurrentIOStatus (env : Int → Bool) : List Bool :=
  (List.range 2049).map (fun i => read_io env (Int.ofNat i))

/-- The one-shot notification flags are mutually exclusive: `pauseNotified`
(`message_sent_limited`) and `resumeNotified` (`message_sent_recovered`) are
not both set. -/
def flagsOK (st : RobotState) : Prop :=
  ¬(st.message_sent_limited = true ∧ st.message_sent_recovered = true)

/-! ## Concrete fixtures

Small closed instances used to instantiate the theorems below at concrete
inputs. -/

/-- A physical-input environment where only input 5 reads true. -/
def envW : Int → Bool := fun i => decide (i = 5)

/-- A physical-input environment where every input reads false. -/
def envClear : Int → Bool := fun _ => false

/-- A physical-input environment where only input 9 reads true. -/
def envReset9 : Int → Bool := fun i => decide (i = 9)

/-- A robot-controller environment: both robots running, pause confirms,
resume confirms. -/
def renvW : RobotEnv :=
  { getProgramRunStatus := fun _ => 2
    statusAfterPause := fun _ => 1
    statusAfterResume := fun _ => 2
    getCurrentOpenJob := fun _ => "job1" }

/-- A robot table with every robot in its initial state. -/
def robotsW : Int → RobotState := fun _ => initRobotState

/-- A configured, latched entry watching input 5 (trigger level high, no
dedicated reset input). -/
def ioW : IOConfig :=
  { io_index := 5
    reset_io_index := 0
    trigger_value := 1
    description := "curtain"
    is_configured := true
    already_triggered := true
    trigger_time := 3 }

/-- A configured, latched entry watching input 7 with dedicated reset
input 9. -/
def ioDebounce : IOConfig :=
  { io_index := 7
    reset_io_index := 9
    trigger_value := 1
    description := "door"
    is_configured := true
    already_triggered := true
    trigger_time := 2 }

/-- A global state with the single entry `ioW` latched and the system
LIMITED. -/
def gW : GlobalState :=
  { io_list := [ioW]
    configured_limited_speed := 30
    robots := robotsW
    system_state := .LIMITED
    limited_msg_sent := true
    normal_msg_sent := false
    saved_file := none }

/-- An input entry whose `io_index` is in range but whose `reset_io_index`
(3000) is out of range. -/
def badCfg : IOConfig :=
  { io_index := 5
    reset_io_index := 3000
    trigger_value := 1
    description := "bad reset"
    is_configured := true
    already_triggered := false
    trigger_time := 0 }

/-- The raw request element corresponding to `badCfg`. -/
def rawBad : RawEntry :=
  { io_index := 5, reset_io_index := 3000, trigger_value := 1, description := "bad reset" }

/-! ## Helper lemmas -/

/-- Every slot built by `applyOneEntry` from an all-unlatched table is
unlatched. -/
theorem applyOneEntry_untriggered (acc : List IOConfig) (cfg : IOConfig)
    (h : ∀ io ∈ acc, io.already_triggered = false) :
    ∀ io ∈ applyOneEntry acc cfg, io.already_triggered = false := by
  intro io hio
  unfold applyOneEntry at hio
  split at hio
  · split at hio
    · rcases List.mem_or_eq_of_mem_set hio with h1 | h1
      · exact h io h1
      · subst h1; rfl
    · exact h io hio
  · exact h io hio

/-- Every slot of the registry `updateIOConfig` builds is unlatched. -/
theorem applyConfigEntries_untriggered (config : List IOConfig) :
    ∀ io ∈ applyConfigEntries config, io.already_triggered = false := by
  unfold applyConfigEntries
  have haux : ∀ (l : List IOConfig) (acc : List IOConfig),
      (∀ io ∈ acc, io.already_triggered = false) →
      ∀ io ∈ l.foldl applyOneEntry acc, io.already_triggered = false := by
    intro l
    induction l with
    | nil => intro acc h; simpa using h
    | cons c cs ih =>
        intro acc h
        simp only [List.foldl_cons]
        exact ih _ (applyOneEntry_untriggered acc c h)
  refine haux config _ ?_
  intro io hio
  have := List.eq_of_mem_replicate hio
  subst this; rfl

/-- The evaluator cycle's registry and system state: the registry is the
per-entry evaluation of the old registry, and the final system state is
LIMITED exactly when the evaluated registry still carries a configured
latch (in the no-transition branch the old state already equals it; in a
transition branch it is stored). -/
theorem monitorCycle_core (env : Int → Bool) (renv : RobotEnv) (now : Int) (g : GlobalState) :
    (monitorCycle env renv now g).1.io_list = g.io_list.map (evalEntry env now) ∧
    (monitorCycle env renv now g).1.system_state =
      (if (g.io_list.map (evalEntry env now)).any
            (fun io => io.is_configured && io.already_triggered) = true
       then SystemState.LIMITED else SystemState.NORMAL) := by
  cases hb : (g.io_list.map (evalEntry env now)).any
      (fun io => io.is_configured && io.already_triggered) <;>
    cases hgs : g.system_state <;>
      simp [monitorCycle, hb, hgs] <;>
        constructor <;> split <;> rfl

/-- The forgive step does not touch an entry's identity fields. -/
theorem clearEntry_is_configured (io : IOConfig) :
    (clearEntry io).is_configured = io.is_configured := by
  unfold clearEntry
  split <;> rfl

/-- The forgive step does not change whether the trigger condition holds. -/
theorem meets_trigger_clearEntry (env : Int → Bool) (io : IOConfig) :
    meets_trigger env (clearEntry io) = meets_trigger env io := by
  unfold clearEntry meets_trigger
  split <;> rfl

/-- After the forgive step, a configured entry's latch is clear. -/
theorem clearEntry_flag (io : IOConfig) (hc : io.is_configured = true) :
    (clearEntry io).already_triggered = false := by
  unfold clearEntry
  by_cases ht : io.already_triggered = true
  · rw [if_pos ⟨hc, ht⟩]
  · rw [if_neg (fun hAnd => ht hAnd.2)]
    simp at ht
    exact ht

/-- After the forgive step, a configured entry whose timestamp was
consistent (zero whenever unlatched) has both latch and timestamp clear. -/
theorem clearEntry_cleared (io : IOConfig) (hc : io.is_configured = true)
    (hwf : io.already_triggered = false → io.trigger_time = 0) :
    (clearEntry io).already_triggered = false ∧ (clearEntry io).trigger_time = 0 := by
  unfold clearEntry
  by_cases ht : io.already_triggered = true
  · rw [if_pos ⟨hc, ht⟩]
    exact ⟨rfl, rfl⟩
  · rw [if_neg (fun hAnd => ht hAnd.2)]
    simp at ht
    exact ⟨ht, hwf ht⟩

/-- The re-latch step fires on a configured, unlatched, in-alarm entry. -/
theorem relatchEntry_latches (env : Int → Bool) (now : Int) (io : IOConfig)
    (hc : io.is_configured = true) (hmt : meets_trigger env io = true)
    (ht : io.already_triggered = false) :
    relatchEntry env now io = { io with already_triggered := true, trigger_time := now } := by
  unfold relatchEntry
  rw [if_pos ⟨hc, hmt, ht⟩]

/-- After the forgive step, every configured slot of the registry is fully
cleared (latch and timestamp), assuming timestamps were consistent. -/
theorem mem_map_clearEntry_cleared (l : List IOConfig)
    (hwf : ∀ io ∈ l, io.already_triggered = false → io.trigger_time = 0) :
    ∀ io ∈ l.map clearEntry, io.is_configured = true →
      io.already_triggered = false ∧ io.trigger_time = 0 := by
  intro io hio hc
  obtain ⟨orig, hm, rfl⟩ := List.mem_map.mp hio
  exact clearEntry_cleared orig (by rw [← clearEntry_is_configured]; exact hc) (hwf orig hm)

/-- Unrolling the two-robot actuation loop: the result is the two pointwise
updates and the concatenated notifications. -/
theorem runOnRobots_eq (f : RobotState → Int → RobotState × List Event)
    (robots : Int → RobotState) :
    runOnRobots f robots =
      (Function.update (Function.update robots 1 (f (robots 1) 1).1) 2 (f (robots 2) 2).1,
       (f (robots 1) 1).2 ++ (f (robots 2) 2).2) := by
  simp only [runOnRobots, handled_robot_ids, List.foldl_cons, List.foldl_nil, List.nil_append]
  rw [Function.update_noteq (by decide : (2:Int) ≠ 1)]

/-- A second `pauseOne` under the same controller environment changes
nothing and can only emit the (never de-duplicated) failure notification. -/
theorem pauseOne_second (renv : RobotEnv) (st : RobotState) (id : Int) :
    (pauseOne renv (pauseOne renv st id).1 id).1 = (pauseOne renv st id).1 ∧
    ∀ e ∈ (pauseOne renv (pauseOne renv st id).1 id).2, e.isFailure = true := by
  by_cases h2 : renv.getProgramRunStatus id = 2 <;>
    by_cases hp : renv.statusAfterPause id = 1 <;>
      by_cases hm : st.message_sent_limited = false <;>
        simp [pauseOne, h2, hp, hm, Event.isFailure]

/-- Pointwise description of one `pause_robots` call: robot 1 and robot 2
are stepped through `pauseOne`, every other id is untouched, and the events
are the two robots' notifications in order. -/
theorem pause_robots_apply (renv : RobotEnv) (robots : Int → RobotState) :
    (pause_robots renv robots).1 1 = (pauseOne renv (robots 1) 1).1 ∧
    (pause_robots renv robots).1 2 = (pauseOne renv (robots 2) 2).1 ∧
    (∀ j, j ≠ 1 → j ≠ 2 → (pause_robots renv robots).1 j = robots j) ∧
    (pause_robots renv robots).2 =
      (pauseOne renv (robots 1) 1).2 ++ (pauseOne renv (robots 2) 2).2 := by
  unfold pause_robots
  rw [runOnRobots_eq]
  dsimp only
  refine ⟨?_, ?_, ?_, rfl⟩
  · rw [Function.update_noteq (by decide : (1:Int) ≠ 2), Function.update_same]
  · rw [Function.update_same]
  · intro j hj1 hj2
    rw [Function.update_noteq hj2, Function.update_noteq hj1]

/-- Unrolling the two-robot bookkeeping loop. -/
theorem mapRobots_eq (f : Int → RobotState → RobotState) (robots : Int → RobotState) :
    mapRobots f robots =
      Function.update (Function.update robots 1 (f 1 (robots 1))) 2 (f 2 (robots 2)) := by
  simp only [mapRobots, handled_robot_ids, List.foldl_cons, List.foldl_nil]
  rw [Function.update_noteq (by decide : (2:Int) ≠ 1)]

/-- A pointwise property preserved by the per-robot action is preserved by
the whole actuation loop. -/
theorem runOnRobots_preserve (P : RobotState → Prop)
    (f : RobotState → Int → RobotState × List Event)
    (hf : ∀ st id, P st → P (f st id).1) (robots : Int → RobotState)
    (h0 : ∀ j, P (robots j)) : ∀ j, P ((runOnRobots f robots).1 j) := by
  intro j
  rw [runOnRobots_eq]
  dsimp only
  by_cases hj2 : j = 2
  · subst hj2
    rw [Function.update_same]
    exact hf _ _ (h0 2)
  · by_cases hj1 : j = 1
    · subst hj1
      rw [Function.update_noteq (by decide : (1:Int) ≠ 2), Function.update_same]
      exact hf _ _ (h0 1)
    · rw [Function.update_noteq hj2, Function.update_noteq hj1]
      exact h0 j

/-- A pointwise property preserved by the per-robot update is preserved by
the whole bookkeeping loop. -/
theorem mapRobots_preserve (P : RobotState → Prop) (f : Int → RobotState → RobotState)
    (hf : ∀ id st, P st → P (f id st)) (robots : Int → RobotState)
    (h0 : ∀ j, P (robots j)) : ∀ j, P (mapRobots f robots j) := by
  intro j
  rw [mapRobots_eq]
  by_cases hj2 : j = 2
  · subst hj2
    rw [Function.update_same]
    exact hf _ _ (h0 2)
  · by_cases hj1 : j = 1
    · subst hj1
      rw [Function.update_noteq (by decide : (1:Int) ≠ 2), Function.update_same]
      exact hf _ _ (h0 1)
    · rw [Function.update_noteq hj2, Function.update_noteq hj1]
      exact h0 j

/-- One pause step keeps the notification flags mutually exclusive. -/
theorem pauseOne_flagsOK (renv : RobotEnv) (st : RobotState) (id : Int)
    (h : flagsOK st) : flagsOK (pauseOne renv st id).1 := by
  by_cases h2 : renv.getProgramRunStatus id = 2 <;>
    by_cases hp : renv.statusAfterPause id = 1 <;>
      by_cases hm : st.message_sent_limited = false <;>
        simp_all [pauseOne, flagsOK]

/-- One resume step keeps the notification flags mutually exclusive. -/
theorem resumeOne_flagsOK (renv : RobotEnv) (st : RobotState) (id : Int)
    (h : flagsOK st) : flagsOK (resumeOne renv st id).1 := by
  by_cases h1 : renv.getProgramRunStatus id = 1 <;>
    by_cases hj : st.last_job_name = "" <;>
      by_cases hr : renv.statusAfterResume id = 2 <;>
        by_cases hm : st.message_sent_recovered = false <;>
          simp_all [resumeOne, flagsOK]

/-- With a valid `limited_speed`, `updateIOConfig` replaces the registry and
the stored speed in memory regardless of the save outcome. -/
theorem updateIOConfig_memory (saveOk : Bool) (config : List IOConfig) (speed : Int)
    (g : GlobalState) (h : ¬(speed < 0 ∨ speed > 100)) :
    (updateIOConfig saveOk config speed g).2.io_list = applyConfigEntries config ∧
    (updateIOConfig saveOk config speed g).2.configured_limited_speed = speed := by
  unfold updateIOConfig
  rw [if_neg h]
  cases saveOk <;> exact ⟨rfl, rfl⟩

/-! ## Claim theorems -/

/-- C7: a call to `updateIOConfig` with `limited_speed` outside [0,100]
returns failure and mutates nothing — the whole global state (IO table,
stored limited speed, persisted file) is unchanged, and a subsequent
`get_config` reflects the prior configuration. -/
theorem updateIOConfig_rejects_invalid_speed (saveOk : Bool) (config : List IOConfig)
    (speed : Int) (g : GlobalState) (h : speed < 0 ∨ speed > 100) :
    updateIOConfig saveOk config speed g = (false, g) ∧
    get_config (updateIOConfig saveOk config speed g).2 = get_config g := by
  have he : updateIOConfig saveOk config speed g = (false, g) := by
    unfold updateIOConfig
    rw [if_pos h]
  exact ⟨he, by rw [he]⟩

/-- Witness for C7: `limited_speed = 101` is rejected with no state
change. -/
theorem updateIOConfig_rejects_invalid_speed_witness :
    updateIOConfig true [] 101 gW = (false, gW) :=
  (updateIOConfig_rejects_invalid_speed true [] 101 gW (Or.inr (by norm_num))).1

/-- C8: a call to `updateIOConfig` with a valid `limited_speed` whose
persistence write fails returns failure, yet the in-memory state holds the
new configuration: the table is fully replaced (every slot unlatched), the
limited speed is stored, and only the persisted file is left unchanged. -/
theorem updateIOConfig_save_failure_keeps_memory (config : List IOConfig) (speed : Int)
    (g : GlobalState) (h0 : 0 ≤ speed) (h1 : speed ≤ 100) :
    (updateIOConfig false config speed g).1 = false ∧
    (updateIOConfig false config speed g).2.io_list = applyConfigEntries config ∧
    (updateIOConfig false config speed g).2.configured_limited_speed = speed ∧
    (∀ io ∈ (updateIOConfig false config speed g).2.io_list, io.already_triggered = false) ∧
    (updateIOConfig false config speed g).2.robots = g.robots ∧
    (updateIOConfig false config speed g).2.system_state = g.system_state ∧
    (updateIOConfig false config speed g).2.saved_file = g.saved_file := by
  have hcond : ¬(speed < 0 ∨ speed > 100) := by
    push_neg
    exact ⟨h0, h1⟩
  have hres : updateIOConfig false config speed g =
      (false, { g with io_list := applyConfigEntries config,
                       configured_limited_speed := speed }) := by
    unfold updateIOConfig
    rw [if_neg hcond]
    rfl
  rw [hres]
  exact ⟨rfl, rfl, rfl, applyConfigEntries_untriggered config, rfl, rfl, rfl⟩

/-- Witness for C8: a save failure at `limited_speed = 30` still replaces
memory and reports failure. -/
theorem updateIOConfig_save_failure_keeps_memory_witness :
    (updateIOConfig false [] 30 gW).1 = false ∧
    (updateIOConfig false [] 30 gW).2.configured_limited_speed = 30 := by
  have h := updateIOConfig_save_failure_keeps_memory [] 30 gW (by norm_num) (by norm_num)
  exact ⟨h.1, h.2.2.1⟩

/-- C10: `read_io` returns false for every index outside 0..2048 regardless
of the platform environment, and the evaluator cycle, the manual reset, and
`getCurrentIOStatus` depend on the environment only at indices 0..2048 — no
operation ever reads an out-of-range input. -/
theorem read_io_range_guard :
    (∀ i : Int, i < 0 ∨ i > 2048 → ∀ env, read_io env i = false) ∧
    (∀ env1 env2 : Int → Bool, (∀ i : Int, 0 ≤ i → i ≤ 2048 → env1 i = env2 i) →
      (∀ renv now g, monitorCycle env1 renv now g = monitorCycle env2 renv now g) ∧
      (∀ renv now g, resetSpeed env1 renv now g = resetSpeed env2 renv now g) ∧
      getCurrentIOStatus env1 = getCurrentIOStatus env2) := by
  constructor
  · intro i hi env
    unfold read_io
    rw [if_pos hi]
  · intro env1 env2 hagree
    have hread : read_io env1 = read_io env2 := by
      funext i
      unfold read_io
      by_cases hi : i < 0 ∨ i > 2048
      · rw [if_pos hi, if_pos hi]
      · have hin : 0 ≤ i ∧ i ≤ 2048 := by
          constructor
          · exact not_lt.mp (fun h => hi (Or.inl h))
          · exact not_lt.mp (fun h => hi (Or.inr h))
        rw [if_neg hi, if_neg hi]
        exact hagree i hin.1 hin.2
    have hmt : meets_trigger env1 = meets_trigger env2 := by
      funext io
      unfold meets_trigger
      rw [hread]
    have hev : evalEntry env1 = evalEntry env2 := by
      funext now io
      unfold evalEntry
      rw [hmt, hread]
    have hrel : relatchEntry env1 = relatchEntry env2 := by
      funext now io
      unfold relatchEntry
      rw [hmt]
    refine ⟨?_, ?_, ?_⟩
    · intro renv now g
      unfold monitorCycle
      rw [hev]
    · intro renv now g
      unfold resetSpeed
      rw [hmt, hrel]
    · unfold getCurrentIOStatus
      rw [hread]

/-- Witness for C10: the out-of-range index −1 reads false in the
environment where input 5 is high. -/
theorem read_io_range_guard_witness : read_io envW (-1) = false :=
  read_io_range_guard.1 (-1) (Or.inl (by norm_num)) envW

/-- C2: at the end of every evaluator cycle the system state is LIMITED if
and only if at least one configured entry of the (post-cycle) registry has
its `already_triggered` flag set. -/
theorem monitorCycle_limited_iff_triggered (env : Int → Bool) (renv : RobotEnv)
    (now : Int) (g : GlobalState) :
    (monitorCycle env renv now g).1.system_state = SystemState.LIMITED ↔
    ∃ io ∈ (monitorCycle env renv now g).1.io_list,
      io.is_configured = true ∧ io.already_triggered = true := by
  obtain ⟨h1, h2⟩ := monitorCycle_core env renv now g
  rw [h1, h2]
  by_cases hb : (g.io_list.map (evalEntry env now)).any
      (fun io => io.is_configured && io.already_triggered) = true
  · rw [if_pos hb]
    rw [List.any_eq_true] at hb
    constructor
    · intro _
      obtain ⟨x, hx, hpx⟩ := hb
      rw [Bool.and_eq_true] at hpx
      exact ⟨x, hx, hpx.1, hpx.2⟩
    · intro _
      rfl
  · rw [if_neg hb]
    constructor
    · intro h
      exact absurd h (by decide)
    · rintro ⟨io, hm, hc, ht⟩
      exact absurd (List.any_eq_true.mpr ⟨io, hm, by rw [hc, ht]; rfl⟩) hb

/-- Witness for C2 in the LIMITED direction: with input 5 high, a cycle on
`gW` ends LIMITED. -/
theorem monitorCycle_limited_iff_triggered_witness :
    (monitorCycle envW renvW 9 gW).1.system_state = SystemState.LIMITED :=
  (monitorCycle_limited_iff_triggered envW renvW 9 gW).mpr
    ⟨ioW, by decide, by decide, by decide⟩

/-- C3: per-entry reset semantics of the evaluator.  For a configured,
latched entry with a dedicated reset input (`reset_io_index > 0`): while the
trigger condition is clear but the reset input reads false the entry is left
untouched (hence unchanged across any number of such cycles, the final
conjunct); the latch and timestamp are cleared in a cycle where the trigger
condition is clear and the reset input reads true; and the latch can *only*
clear in a cycle where the reset input reads true.  With no dedicated reset
input (`reset_io_index = 0`), the trigger condition being clear alone clears
the latch in that same cycle. -/
theorem evalEntry_reset_condition :
    (∀ (io : IOConfig) (env : Int → Bool) (now : Int),
       io.is_configured = true → io.already_triggered = true → 0 < io.reset_io_index →
       meets_trigger env io = false → read_io env io.reset_io_index = false →
       evalEntry env now io = io) ∧
    (∀ (io : IOConfig) (env : Int → Bool) (now : Int),
       io.is_configured = true → io.already_triggered = true → 0 < io.reset_io_index →
       meets_trigger env io = false → read_io env io.reset_io_index = true →
       (evalEntry env now io).already_triggered = false ∧
       (evalEntry env now io).trigger_time = 0) ∧
    (∀ (io : IOConfig) (env : Int → Bool) (now : Int),
       io.is_configured = true → io.already_triggered = true → 0 < io.reset_io_index →
       (evalEntry env now io).already_triggered = false →
       read_io env io.reset_io_index = true) ∧
    (∀ (io : IOConfig) (env : Int → Bool) (now : Int),
       io.is_configured = true → io.already_triggered = true → io.reset_io_index = 0 →
       meets_trigger env io = false →
       (evalEntry env now io).already_triggered = false ∧
       (evalEntry env now io).trigger_time = 0) ∧
    (∀ (io : IOConfig) (steps : List ((Int → Bool) × Int)),
       io.is_configured = true → io.already_triggered = true → 0 < io.reset_io_index →
       (∀ p ∈ steps, meets_trigger p.1 io = false ∧ read_io p.1 io.reset_io_index = false) →
       steps.foldl (fun s p => evalEntry p.1 p.2 s) io = io) := by
  have hhold : ∀ (io : IOConfig) (env : Int → Bool) (now : Int),
      io.is_configured = true → io.already_triggered = true → 0 < io.reset_io_index →
      meets_trigger env io = false → read_io env io.reset_io_index = false →
      evalEntry env now io = io := by
    intro io env now hc ht hr hmt hreset
    simp [evalEntry, hc, ht, hr, hmt, hreset]
  refine ⟨hhold, ?_, ?_, ?_, ?_⟩
  · intro io env now hc ht hr hmt hreset
    simp [evalEntry, hc, ht, hr, hmt, hreset]
  · intro io env now hc ht hr hcleared
    by_cases hmt : meets_trigger env io = true
    · exfalso
      have : (evalEntry env now io).already_triggered = true := by
        simp [evalEntry, hc, ht, hmt]
      rw [this] at hcleared
      cases hcleared
    · by_cases hreset : read_io env io.reset_io_index = true
      · exact hreset
      · exfalso
        have heq := hhold io env now hc ht hr (Bool.not_eq_true _ ▸ hmt)
          (Bool.not_eq_true _ ▸ hreset)
        rw [heq] at hcleared
        rw [ht] at hcleared
        cases hcleared
  · intro io env now hc ht hr hmt
    simp [evalEntry, hc, ht, hr, hmt]
  · intro io steps hc ht hr hsteps
    induction steps with
    | nil => rfl
    | cons p ps ih =>
        simp only [List.foldl_cons]
        rw [hhold io p.1 p.2 hc ht hr (hsteps p (List.mem_cons_self p ps)).1
          (hsteps p (List.mem_cons_self p ps)).2]
        exact ih (fun q hq => hsteps q (List.mem_cons_of_mem p hq))

/-- Witness for C3: the latched entry `ioDebounce` (reset input 9) survives
a cycle where everything reads false, and clears in a cycle where input 9
reads true. -/
theorem evalEntry_reset_condition_witness :
    evalEntry envClear 4 ioDebounce = ioDebounce ∧
    (evalEntry envReset9 4 ioDebounce).already_triggered = false :=
  ⟨evalEntry_reset_condition.1 ioDebounce envClear 4 (by decide) (by decide) (by decide)
      (by decide) (by decide),
   (evalEntry_reset_condition.2.1 ioDebounce envReset9 4 (by decide) (by decide) (by decide)
      (by decide) (by decide)).1⟩

/-- C1: a manual reset issued while at least one configured entry's physical
level equals its trigger level returns failure, leaves the system LIMITED,
and re-latches every configured entry currently in alarm with a fresh
timestamp. -/
theorem resetSpeed_relatches_when_still_in_alarm (env : Int → Bool) (renv : RobotEnv)
    (now : Int) (g : GlobalState)
    (h : ∃ io ∈ g.io_list, io.is_configured = true ∧ meets_trigger env io = true) :
    (resetSpeed env renv now g).1 = false ∧
    (resetSpeed env renv now g).2.1.system_state = SystemState.LIMITED ∧
    ∀ i, (hi : i < g.io_list.length) →
      (g.io_list[i]).is_configured = true → meets_trigger env (g.io_list[i]) = true →
      ∃ io', (resetSpeed env renv now g).2.1.io_list[i]? = some io' ∧
        io'.already_triggered = true ∧ io'.trigger_time = now := by
  have hfind : ∃ x ∈ g.io_list.map clearEntry,
      (fun io => io.is_configured && meets_trigger env io) x = true := by
    obtain ⟨io, hm, hc, hmt⟩ := h
    refine ⟨clearEntry io, List.mem_map_of_mem _ hm, ?_⟩
    show ((clearEntry io).is_configured && meets_trigger env (clearEntry io)) = true
    rw [clearEntry_is_configured, meets_trigger_clearEntry, hc, hmt]
    rfl
  obtain ⟨a, ha⟩ := Option.isSome_iff_exists.mp (List.find?_isSome.mpr hfind)
  have hres : resetSpeed env renv now g =
      (false,
       { g with io_list := (g.io_list.map clearEntry).map (relatchEntry env now),
                system_state := SystemState.LIMITED },
       [Event.resetStillActive a.io_index]) := by
    simp only [resetSpeed]
    rw [ha]
  rw [hres]
  refine ⟨rfl, rfl, ?_⟩
  intro i hi hc hmt
  refine ⟨relatchEntry env now (clearEntry (g.io_list[i])), ?_, ?_⟩
  · show ((g.io_list.map clearEntry).map (relatchEntry env now))[i]? = _
    rw [List.getElem?_map, List.getElem?_map, List.getElem?_eq_getElem hi]
    rfl
  · have h1 : (clearEntry (g.io_list[i])).is_configured = true := by
      rw [clearEntry_is_configured]
      exact hc
    have h2 : meets_trigger env (clearEntry (g.io_list[i])) = true := by
      rw [meets_trigger_clearEntry]
      exact hmt
    have h3 : (clearEntry (g.io_list[i])).already_triggered = false :=
      clearEntry_flag _ hc
    rw [relatchEntry_latches env now _ h1 h2 h3]
    exact ⟨rfl, rfl⟩

/-- Witness for C1: on `gW` (entry 5 latched, input 5 high) the manual reset
fails and the system stays LIMITED. -/
theorem resetSpeed_relatches_witness :
    (resetSpeed envW renvW 7 gW).1 = false ∧
    (resetSpeed envW renvW 7 gW).2.1.system_state = SystemState.LIMITED := by
  have h := resetSpeed_relatches_when_still_in_alarm envW renvW 7 gW
    ⟨ioW, by decide, by decide, by decide⟩
  exact ⟨h.1, h.2.1⟩

/-- C4: a manual reset issued while no configured entry's physical level
equals its trigger level clears the latch and timestamp of every configured
entry and returns success; if the system was LIMITED at entry, the state is
forced to NORMAL and `resume_robots` runs inline (the resulting robot table
and the emitted notifications are exactly its output). -/
theorem resetSpeed_success_when_clear (env : Int → Bool) (renv : RobotEnv)
    (now : Int) (g : GlobalState)
    (hclear : ∀ io ∈ g.io_list, io.is_configured = true → meets_trigger env io = false)
    (hwf : ∀ io ∈ g.io_list, io.already_triggered = false → io.trigger_time = 0) :
    (resetSpeed env renv now g).1 = true ∧
    (∀ io ∈ (resetSpeed env renv now g).2.1.io_list, io.is_configured = true →
       io.already_triggered = false ∧ io.trigger_time = 0) ∧
    (g.system_state = SystemState.LIMITED →
       (resetSpeed env renv now g).2.1.system_state = SystemState.NORMAL ∧
       (resetSpeed env renv now g).2.1.robots = (resume_robots renv g.robots).1 ∧
       (resetSpeed env renv now g).2.2 = (resume_robots renv g.robots).2) := by
  have hnone : (g.io_list.map clearEntry).find?
      (fun io => io.is_configured && meets_trigger env io) = none := by
    rw [List.find?_eq_none]
    intro x hx hcontra
    obtain ⟨io, hm, rfl⟩ := List.mem_map.mp hx
    rw [Bool.and_eq_true, clearEntry_is_configured, meets_trigger_clearEntry] at hcontra
    obtain ⟨h1, h2⟩ := hcontra
    rw [hclear io hm h1] at h2
    exact Bool.false_ne_true h2
  by_cases hlim : g.system_state = SystemState.LIMITED
  · have hres : resetSpeed env renv now g =
        (true,
         { g with io_list := g.io_list.map clearEntry,
                  system_state := SystemState.NORMAL,
                  robots := (resume_robots renv g.robots).1 },
         (resume_robots renv g.robots).2) := by
      simp only [resetSpeed]
      rw [hnone, if_pos hlim, if_pos hlim]
    rw [hres]
    exact ⟨rfl, mem_map_clearEntry_cleared g.io_list hwf, fun _ => ⟨rfl, rfl, rfl⟩⟩
  · have hres : resetSpeed env renv now g =
        (true, { g with io_list := g.io_list.map clearEntry }, []) := by
      simp only [resetSpeed]
      rw [hnone, if_neg hlim]
    rw [hres]
    exact ⟨rfl, mem_map_clearEntry_cleared g.io_list hwf, fun hcon => absurd hcon hlim⟩

/-- Witness for C4: with every input low, the manual reset on `gW` succeeds,
clears entry 5, and goes to NORMAL with `resume_robots` invoked. -/
theorem resetSpeed_success_witness :
    (resetSpeed envClear renvW 7 gW).1 = true ∧
    (resetSpeed envClear renvW 7 gW).2.1.system_state = SystemState.NORMAL := by
  have h := resetSpeed_success_when_clear envClear renvW 7 gW
    (by decide) (by decide)
  exact ⟨h.1, (h.2.2 (by decide)).1⟩

/-- C5: a second `pause_robots` call under an unchanged physical environment
(same run-mode query results, same job names) leaves every robot's tracked
state exactly as the first call left it, and emits no notification other
than the never-de-duplicated failure notifications. -/
theorem pause_robots_idempotent (renv : RobotEnv) (robots : Int → RobotState) :
    (∀ j, (pause_robots renv (pause_robots renv robots).1).1 j =
          (pause_robots renv robots).1 j) ∧
    (∀ e ∈ (pause_robots renv (pause_robots renv robots).1).2, e.isFailure = true) := by
  obtain ⟨a1, a2, a3, a4⟩ := pause_robots_apply renv robots
  obtain ⟨b1, b2, b3, b4⟩ := pause_robots_apply renv (pause_robots renv robots).1
  constructor
  · intro j
    by_cases hj1 : j = 1
    · subst hj1
      calc (pause_robots renv (pause_robots renv robots).1).1 1
          = (pauseOne renv ((pause_robots renv robots).1 1) 1).1 := b1
        _ = (pauseOne renv (pauseOne renv (robots 1) 1).1 1).1 := by rw [a1]
        _ = (pauseOne renv (robots 1) 1).1 := (pauseOne_second renv (robots 1) 1).1
        _ = (pause_robots renv robots).1 1 := a1.symm
    · by_cases hj2 : j = 2
      · subst hj2
        calc (pause_robots renv (pause_robots renv robots).1).1 2
            = (pauseOne renv ((pause_robots renv robots).1 2) 2).1 := b2
          _ = (pauseOne renv (pauseOne renv (robots 2) 2).1 2).1 := by rw [a2]
          _ = (pauseOne renv (robots 2) 2).1 := (pauseOne_second renv (robots 2) 2).1
          _ = (pause_robots renv robots).1 2 := a2.symm
      · exact b3 j hj1 hj2
  · intro e he
    rw [b4] at he
    rcases List.mem_append.mp he with h | h
    · rw [a1] at h
      exact (pauseOne_second renv (robots 1) 1).2 e h
    · rw [a2] at h
      exact (pauseOne_second renv (robots 2) 2).2 e h

/-- Witness for C5: robot 1's state after the second of two identical pause
calls equals its state after the first. -/
theorem pause_robots_idempotent_witness :
    (pause_robots renvW (pause_robots renvW robotsW).1).1 1 =
    (pause_robots renvW robotsW).1 1 :=
  (pause_robots_idempotent renvW robotsW).1 1

/-- C9: the one-shot flags `message_sent_limited` and
`message_sent_recovered` are never both set: they start clear, and each of
`pause_robots`, `resume_robots`, and the evaluator cycle preserves their
mutual exclusion for every robot. -/
theorem notification_flags_exclusive :
    flagsOK initRobotState ∧
    (∀ (renv : RobotEnv) (robots : Int → RobotState), (∀ j, flagsOK (robots j)) →
       ∀ j, flagsOK ((pause_robots renv robots).1 j)) ∧
    (∀ (renv : RobotEnv) (robots : Int → RobotState), (∀ j, flagsOK (robots j)) →
       ∀ j, flagsOK ((resume_robots renv robots).1 j)) ∧
    (∀ (env : Int → Bool) (renv : RobotEnv) (now : Int) (g : GlobalState),
       (∀ j, flagsOK (g.robots j)) →
       ∀ j, flagsOK ((monitorCycle env renv now g).1.robots j)) := by
  have hpause : ∀ (renv : RobotEnv) (robots : Int → RobotState),
      (∀ j, flagsOK (robots j)) → ∀ j, flagsOK ((pause_robots renv robots).1 j) := by
    intro renv robots h
    unfold pause_robots
    exact runOnRobots_preserve flagsOK _ (fun st id hh => pauseOne_flagsOK renv st id hh)
      robots h
  have hresume : ∀ (renv : RobotEnv) (robots : Int → RobotState),
      (∀ j, flagsOK (robots j)) → ∀ j, flagsOK ((resume_robots renv robots).1 j) := by
    intro renv robots h
    unfold resume_robots
    exact runOnRobots_preserve flagsOK _ (fun st id hh => resumeOne_flagsOK renv st id hh)
      robots h
  refine ⟨fun h => Bool.false_ne_true h.1, hpause, hresume, ?_⟩
  intro env renv now g h0
  have hrefresh : ∀ (robots : Int → RobotState), (∀ j, flagsOK (robots j)) →
      ∀ j, flagsOK (mapRobots
        (fun id st => { st with current_run_status := renv.getProgramRunStatus id }) robots j) :=
    fun robots h => mapRobots_preserve flagsOK
      (fun id st => { st with current_run_status := renv.getProgramRunStatus id })
      (fun _ _ hst => hst) robots h
  have hclearRec : ∀ (robots : Int → RobotState), (∀ j, flagsOK (robots j)) →
      ∀ j, flagsOK (mapRobots
        (fun _ st => { st with message_sent_recovered := false }) robots j) :=
    fun robots h => mapRobots_preserve flagsOK
      (fun _ st => { st with message_sent_recovered := false })
      (fun _ _ _ hand => Bool.false_ne_true hand.2) robots h
  have hclearLim : ∀ (robots : Int → RobotState), (∀ j, flagsOK (robots j)) →
      ∀ j, flagsOK (mapRobots
        (fun _ st => { st with message_sent_limited := false }) robots j) :=
    fun robots h => mapRobots_preserve flagsOK
      (fun _ st => { st with message_sent_limited := false })
      (fun _ _ _ hand => Bool.false_ne_true hand.1) robots h
  cases hb : (g.io_list.map (evalEntry env now)).any
      (fun io => io.is_configured && io.already_triggered) <;>
    cases hgs : g.system_state
  · simp [monitorCycle, hb, hgs]
    exact hrefresh _ h0
  · simp [monitorCycle, hb, hgs]
    intro j
    split
    · exact hrefresh _ (hresume renv _ (hclearLim _ h0)) j
    · exact hrefresh _ (hresume renv _ h0) j
  · simp [monitorCycle, hb, hgs]
    intro j
    split
    · exact hrefresh _ (hpause renv _ (hclearRec _ h0)) j
    · exact hrefresh _ (hpause renv _ h0) j
  · simp [monitorCycle, hb, hgs]
    exact hrefresh _ h0

/-- Witness for C9: after one pause call from the initial table, robot 1's
flags are still mutually exclusive. -/
theorem notification_flags_exclusive_witness :
    flagsOK ((pause_robots renvW robotsW).1 1) :=
  notification_flags_exclusive.2.1 renvW robotsW
    (fun _ => notification_flags_exclusive.1) 1

/-- Counterexample for C6: `updateIOConfig` called directly with an entry
whose `io_index` (5) is in range but whose `reset_io_index` (3000) is out of
range does NOT retain the entry with a normalized reset index — it discards
it: the replaced table is all default slots and slot 5 is unconfigured. -/
theorem updateIOConfig_discards_oob_reset_counterexample :
    (updateIOConfig true [badCfg] 30 gW).2.io_list = List.replicate 2049 defaultIOConfig ∧
    ((updateIOConfig true [badCfg] 30 gW).2.io_list.getD 5 defaultIOConfig).is_configured
      = false := by
  constructor
  · rfl
  · rfl

/-- C6 (amended): the resetIndex normalization happens in the request
handler's parse step, not in `updateIOConfig`.  An `update_config` element
with in-range `io_index` and out-of-range `reset_io_index` is parsed into an
entry with `reset_io_index = 0` and, passed on to `updateIOConfig`, lands
configured at its slot with reset index 0; `updateIOConfig` itself, given an
entry with out-of-range `reset_io_index` directly, discards it (only the
parse path normalizes). -/
theorem update_config_reset_normalization (e : RawEntry) (saveOk : Bool) (speed : Int)
    (g : GlobalState)
    (hidx0 : 0 ≤ e.io_index) (hidx1 : e.io_index ≤ 2048)
    (hreset : e.reset_io_index < 0 ∨ e.reset_io_index > 2048)
    (hs0 : 0 ≤ speed) (hs1 : speed ≤ 100) :
    (∃ cfg, parseConfigData [e] = [cfg] ∧ cfg.io_index = e.io_index ∧
       cfg.reset_io_index = 0) ∧
    (∃ io', (updateIOConfig saveOk (parseConfigData [e]) speed
        g).2.io_list[e.io_index.toNat]? = some io' ∧
       io'.is_configured = true ∧ io'.io_index = e.io_index ∧ io'.reset_io_index = 0) ∧
    (∀ cfg : IOConfig, 0 ≤ cfg.io_index → cfg.io_index ≤ 2048 →
       (cfg.reset_io_index < 0 ∨ cfg.reset_io_index > 2048) →
       (updateIOConfig saveOk [cfg] speed g).2.io_list =
         List.replicate 2049 defaultIOConfig) := by
  have hnotidx : ¬(e.io_index < 0 ∨ e.io_index > 2048) := by
    push_neg
    exact ⟨hidx0, hidx1⟩
  have hspeed : ¬(speed < 0 ∨ speed > 100) := by
    push_neg
    exact ⟨hs0, hs1⟩
  have hpe : parseConfigEntry e = some
      { io_index := e.io_index
        reset_io_index := 0
        trigger_value := if e.trigger_value ≠ 0 ∧ e.trigger_value ≠ 1 then 1
          else e.trigger_value
        description := e.description
        is_configured := true
        already_triggered := false
        trigger_time := 0 } := by
    simp only [parseConfigEntry]
    rw [if_neg hnotidx, if_pos hreset]
  have hparse : parseConfigData [e] = [
      { io_index := e.io_index
        reset_io_index := 0
        trigger_value := if e.trigger_value ≠ 0 ∧ e.trigger_value ≠ 1 then 1
          else e.trigger_value
        description := e.description
        is_configured := true
        already_triggered := false
        trigger_time := 0 }] := by
    simp [parseConfigData, hpe]
  refine ⟨⟨_, hparse, rfl, rfl⟩, ?_, ?_⟩
  · have happly : applyConfigEntries (parseConfigData [e]) =
        (List.replicate 2049 defaultIOConfig).set e.io_index.toNat
          (normalizeEntry
            { io_index := e.io_index
              reset_io_index := 0
              trigger_value := if e.trigger_value ≠ 0 ∧ e.trigger_value ≠ 1 then 1
                else e.trigger_value
              description := e.description
              is_configured := true
              already_triggered := false
              trigger_time := 0 }) := by
      rw [hparse]
      unfold applyConfigEntries applyOneEntry
      simp only [List.foldl_cons, List.foldl_nil]
      rw [if_pos ⟨hidx0, hidx1⟩, if_pos (by norm_num : (0:Int) ≤ 0 ∧ (0:Int) ≤ 2048)]
    have hlen : e.io_index.toNat < (List.replicate 2049 defaultIOConfig).length := by
      rw [List.length_replicate]
      omega
    refine ⟨normalizeEntry
      { io_index := e.io_index
        reset_io_index := 0
        trigger_value := if e.trigger_value ≠ 0 ∧ e.trigger_value ≠ 1 then 1
          else e.trigger_value
        description := e.description
        is_configured := true
        already_triggered := false
        trigger_time := 0 }, ?_, rfl, rfl, rfl⟩
    rw [(updateIOConfig_memory saveOk _ speed g hspeed).1, happly,
      List.getElem?_set_self hlen]
  · intro cfg hc0 hc1 hcr
    rw [(updateIOConfig_memory saveOk _ speed g hspeed).1]
    unfold applyConfigEntries applyOneEntry
    simp only [List.foldl_cons, List.foldl_nil]
    rw [if_pos ⟨hc0, hc1⟩, if_neg ?_]
    rcases hcr with h | h
    · exact fun hand => absurd hand.1 (not_le.mpr h)
    · exact fun hand => absurd hand.2 (not_le.mpr h)

/-- Witness for C6 (amended): the request element with `io_index = 5`,
`reset_io_index = 3000` parses to reset index 0 and lands configured at
slot 5. -/
theorem update_config_reset_normalization_witness :
    ∃ cfg, parseConfigData [rawBad] = [cfg] ∧ cfg.io_index = rawBad.io_index ∧
      cfg.reset_io_index = 0 :=
  (update_config_reset_normalization rawBad true 30 gW (by decide) (by decide)
    (Or.inr (by decide)) (by decide) (by decide)).1

end RasterSafety
